import Mathlib

/-!
Shallow embedding of the execution-tracking core of this autonomous-agent
server (source: `src/autogpt/sdk/agent.py`): the task/step/artifact data
model, the step continuation protocol of `create_and_execute_step`, the
pagination accessors, and the artifact upload/retrieval flow.

External collaborators whose code is part of the repository but not under
`src/` — the record store `AgentDB` (`db.py`), the artifact `Workspace`
(`workspace.py`), the `Status` enumeration (`schema.py`) and the work
executor `utils.run` — are modelled from the specification's interface
contracts (spec §3, §6).  Identifiers are modelled as `Nat` allocated from a
counter (the source uses generated unique ids); byte blobs are `List Nat`.
-/

set_option autoImplicit false

namespace AutoGPT

/-- Modelled from the spec: the `Status` enumeration of `schema.py` (not under
`src/`); spec §3 gives the values `created`, `running`, `completed`. -/
inductive Status
  | created
  | running
  | completed
deriving DecidableEq

/-- Primitive string form of an enumerated status (Python `Status.value`). -/
def Status.value : Status → String
  | .created => "created"
  | .running => "running"
  | .completed => "completed"

/-- A step's `status` field as it exists dynamically in the Python code:
either the enumeration value or its primitive string form.  The code assigns
plain strings such as `"completed"` to the field and checks
`isinstance(step.status, Status)` before taking `.value` (agent.py:149-150),
so both representations occur. -/
inductive StatusRep
  | enumRep (v : Status)
  | strRep (s : String)
deriving DecidableEq

/-- Modelled from the spec: the comparison `s.status != "completed"` of the
continuation scan (agent.py:137), read semantically — per spec §4.1, "find the
first step whose status != completed" — for both representations of the
status field (`schema.py`, which fixes the enumeration's equality behaviour,
is not under `src/`). -/
def StatusRep.neCompleted : StatusRep → Bool
  | .enumRep v => decide (v ≠ Status.completed)
  | .strRep s => decide (s ≠ "completed")

/-- Free-form structured data (`additional_input` dictionaries). -/
def AdditionalInput : Type := List (String × String)

instance : DecidableEq AdditionalInput := by
  unfold AdditionalInput
  infer_instance

/-- Request body for step creation (`StepRequestBody`): carries `input` and
`additional_input` (spec §4.1). -/
structure StepRequestBody where
  input : String
  additional_input : AdditionalInput
deriving DecidableEq

/-- A step's `input` field as it exists dynamically in the Python code: the
normal path of `create_and_execute_step` passes the whole `StepRequestBody`
object as the `input` argument of `db.create_step` (agent.py:114), while the
placeholder path passes the plain string `"y"` (agent.py:142). -/
inductive InputVal
  | str (s : String)
  | req (r : StepRequestBody)
deriving DecidableEq

/-- Artifact record (spec §3): unique id, owning task, optional owning step,
`file_name`, `relative_path` or `uri` (the latter when agent-created), and the
`agent_created` flag. -/
structure Artifact where
  artifact_id : Nat
  task_id : Nat
  step_id : Option Nat
  file_name : String
  relative_path : Option String
  uri : Option String
  agent_created : Bool
deriving DecidableEq

/-- Step record (spec §3): id, owning task, `input`, `additional_input`,
`status`, `output`, `is_last`, and the artifacts produced by this step. -/
structure Step where
  task_id : Nat
  step_id : Nat
  input : InputVal
  additional_input : AdditionalInput
  status : StatusRep
  output : Option String
  is_last : Bool
  artifacts : List Artifact
deriving DecidableEq

/-- Task record (spec §3). -/
structure Task where
  task_id : Nat
  input : String
  additional_input : AdditionalInput
deriving DecidableEq

/-- Pagination metadata shape (spec §6). -/
structure Pagination where
  current_page : Nat
  page_size : Nat
  total_items : Nat
  total_pages : Nat
deriving DecidableEq

/-- Request body for task creation. -/
structure TaskRequestBody where
  input : String
  additional_input : AdditionalInput
deriving DecidableEq

/-- Error kinds surfaced by the collaborators (spec §7): `NotFound` for a
missing record, `FileNotFound` for missing blob bytes (Python
`FileNotFoundError`), `TypeErr` for a Python `TypeError` (e.g. joining a
`None` path). -/
inductive Err
  | NotFound
  | FileNotFound
  | TypeErr
deriving DecidableEq

instance {ε α : Type} [DecidableEq ε] [DecidableEq α] : DecidableEq (Except ε α) :=
  fun x y =>
    match x, y with
    | .error e, .error f =>
      decidable_of_iff (e = f) ⟨fun h => by rw [h], fun h => by injection h⟩
    | .error _, .ok _ => isFalse (fun h => by injection h)
    | .ok _, .error _ => isFalse (fun h => by injection h)
    | .ok a, .ok b =>
      decidable_of_iff (a = b) ⟨fun h => by rw [h], fun h => by injection h⟩

/-- Modelled from the spec: the Record Store state (`AgentDB` of `db.py` is
not under `src/`).  Durable lists of Task, Step, Artifact records in creation
order, plus a fresh-identifier counter (spec §6). -/
structure DB where
  tasks : List Task
  steps : List Step
  artifacts : List Artifact
  nextId : Nat
deriving DecidableEq

/-- Modelled from the spec: one ordered page of records plus pagination
metadata (spec §3: pages are 1-based over the creation-ordered snapshot;
spec §6 gives the metadata shape). -/
def paginate {α : Type} (xs : List α) (page pageSize : Nat) : List α × Pagination :=
  ((xs.drop ((page - 1) * pageSize)).take pageSize,
   { current_page := page
     page_size := pageSize
     total_items := xs.length
     total_pages := (xs.length + pageSize - 1) / pageSize })

/-- Modelled from the spec: `create_task(input, additional_input) -> Task`
with a fresh identifier (spec §6). -/
def DB.create_task (db : DB) (input : String) (additional_input : AdditionalInput) :
    Task × DB :=
  let t : Task := { task_id := db.nextId, input := input, additional_input := additional_input }
  (t, { db with tasks := db.tasks ++ [t], nextId := db.nextId + 1 })

/-- Modelled from the spec: `get_task(id) -> Task | fails NotFound` (spec §6). -/
def DB.get_task (db : DB) (task_id : Nat) : Except Err Task :=
  match db.tasks.find? (fun t => t.task_id == task_id) with
  | some t => .ok t
  | none => .error .NotFound

/-- Modelled from the spec: `list_tasks(page, pageSize)` (spec §6). -/
def DB.list_tasks (db : DB) (page pageSize : Nat) : List Task × Pagination :=
  paginate db.tasks page pageSize

/-- Modelled from the spec: `create_step(task_id, input, additional_input) ->
Step` (spec §6); a fresh step starts in the `created` status (spec §3 status
transitions begin at `created`) with no output, not last, no artifacts. -/
def DB.create_step (db : DB) (task_id : Nat) (input : InputVal)
    (additional_input : AdditionalInput) : Step × DB :=
  let s : Step :=
    { task_id := task_id
      step_id := db.nextId
      input := input
      additional_input := additional_input
      status := .enumRep .created
      output := none
      is_last := false
      artifacts := [] }
  (s, { db with steps := db.steps ++ [s], nextId := db.nextId + 1 })

/-- Modelled from the spec: `update_step(step) -> Step` (spec §6) replaces the
stored record with the given one (steps are mutated in place, never deleted,
per spec §3). -/
def DB.update_step (db : DB) (s : Step) : Step × DB :=
  (s, { db with steps := db.steps.map (fun t => if t.step_id == s.step_id then s else t) })

/-- Modelled from the spec: `get_step(task_id, id) -> Step | fails NotFound`
(spec §6). -/
def DB.get_step (db : DB) (task_id step_id : Nat) : Except Err Step :=
  match db.steps.find? (fun s => s.task_id == task_id && s.step_id == step_id) with
  | some s => .ok s
  | none => .error .NotFound

/-- Modelled from the spec: `list_steps(task_id, page, pageSize)` (spec §6),
ordered by creation (spec §8: list order equals creation order). -/
def DB.list_steps (db : DB) (task_id : Nat) (page pageSize : Nat) :
    List Step × Pagination :=
  paginate (db.steps.filter (fun s => s.task_id == task_id)) page pageSize

/-- Modelled from the spec: `create_artifact(task_id, file_name,
uri|relative_path, agent_created, step_id?) -> Artifact` (spec §6). -/
def DB.create_artifact (db : DB) (task_id : Nat) (file_name : String)
    (relative_path uri : Option String) (agent_created : Bool)
    (step_id : Option Nat) : Artifact × DB :=
  let a : Artifact :=
    { artifact_id := db.nextId
      task_id := task_id
      step_id := step_id
      file_name := file_name
      relative_path := relative_path
      uri := uri
      agent_created := agent_created }
  (a, { db with artifacts := db.artifacts ++ [a], nextId := db.nextId + 1 })

/-- Modelled from the spec: `get_artifact(id) -> Artifact | fails NotFound`
(spec §6); the source looks the record up by artifact id alone
(agent.py:216). -/
def DB.get_artifact (db : DB) (artifact_id : Nat) : Except Err Artifact :=
  match db.artifacts.find? (fun a => a.artifact_id == artifact_id) with
  | some a => .ok a
  | none => .error .NotFound

/-- Modelled from the spec: `list_artifacts(task_id, page, pageSize)`
(spec §6). -/
def DB.list_artifacts (db : DB) (task_id : Nat) (page pageSize : Nat) :
    List Artifact × Pagination :=
  paginate (db.artifacts.filter (fun a => a.task_id == task_id)) page pageSize

/-- Modelled from the spec: the Artifact Workspace (`workspace.py` is not
under `src/`): maps (task identifier, relative path) to a byte blob; supports
`write` and `read` (spec §6).  Newest write for a key shadows older ones. -/
structure Workspace where
  blobs : List (Nat × String × List Nat)
deriving DecidableEq

/-- Modelled from the spec: `write(task_id, path, bytes) -> void` (spec §6). -/
def Workspace.write (ws : Workspace) (task_id : Nat) (path : String)
    (data : List Nat) : Workspace :=
  { blobs := (task_id, path, data) :: ws.blobs }

/-- Modelled from the spec: `read(task_id, path) -> bytes | fails NotFound`
(spec §6); a missing blob surfaces as Python's `FileNotFoundError`
(agent.py:224). -/
def Workspace.read (ws : Workspace) (task_id : Nat) (path : String) :
    Except Err (List Nat) :=
  match ws.blobs.find? (fun b => b.1 == task_id && b.2.1 == path) with
  | some b => .ok b.2.2
  | none => .error .FileNotFound

/-- The server process's current working directory, to which `get_artifact`
writes a local copy of the blob (`open(path, "wb")`, agent.py:220); a write
overwrites any existing file of that name. -/
structure LocalFS where
  files : List (String × List Nat)
deriving DecidableEq

/-- Effect of `open(name, "wb"); f.write(data)` in the current working
directory: the new content shadows any previous file of that name. -/
def LocalFS.writeFile (fs : LocalFS) (name : String) (data : List Nat) : LocalFS :=
  { files := (name, data) :: fs.files }

/-- Content of a file of the current working directory, newest write wins. -/
def LocalFS.readFile (fs : LocalFS) (name : String) : Option (List Nat) :=
  (fs.files.find? (fun f => f.1 == name)).map (fun f => f.2)

/-- Combined mutable state an `Agent` instance can reach: the record store,
the artifact workspace, and the process's current working directory. -/
structure AgentState where
  db : DB
  workspace : Workspace
  localFS : LocalFS
deriving DecidableEq

/-- Python `str.endswith(suf)`: suffix test on the character sequence. -/
def strEndsWith (s suf : String) : Bool := suf.data.isSuffixOf s.data

/-- Python `str.startswith(pre)`: test on the character sequence. -/
def strStartsWith (s p : String) : Bool := p.data.isPrefixOf s.data

/-- Python `os.path.join(a, b)` for two POSIX components (agent.py:197,217):
an absolute second component replaces the first; otherwise the components are
joined, inserting a separator unless the first already ends with one or is
empty. -/
def osPathJoin (a b : String) : String :=
  if strStartsWith b "/" then b
  else if a = "" then b
  else if strEndsWith a "/" then a ++ b
  else a ++ "/" ++ b

/-- One artifact descriptor returned by the Work Executor: a dictionary with
keys `file_name` and `uri` (spec §6). -/
structure ArtifactDescr where
  file_name : String
  uri : String
deriving DecidableEq

/-- An uploaded file as the core sees it: the client-declared name (may be
absent) and the full byte content accumulated by the chunked read loop
(agent.py:190-192). -/
structure UploadFileModel where
  filename : Option String
  content : List Nat
deriving DecidableEq

/-- The artifact-registration loop of the normal path (agent.py:119-130): for
each descriptor returned by the executor, create an Artifact record with the
step's task id and step id, `uri` from the descriptor and
`agent_created = True`, and append it to the step's artifact collection. -/
def registerArtifacts (db : DB) (step : Step) : List ArtifactDescr → Step × DB
  | [] => (step, db)
  | a :: rest =>
    let p := db.create_artifact step.task_id a.file_name none (some a.uri) true
      (some step.step_id)
    registerArtifacts p.2 { step with artifacts := step.artifacts ++ [p.1] } rest

/-- The unconditional post-processing of `create_and_execute_step`
(agent.py:149-151): normalize an enumerated status to its primitive string
form, then overwrite `output` with the fixed work-done marker. -/
def finishStep (step : Step) : Step :=
  let step' :=
    match step.status with
    | .enumRep v => { step with status := .strRep v.value }
    | .strRep _ => step
  { step' with output := some "Done some work" }

/-- `Agent.create_task` (agent.py:58-69): pass-through to the record store;
any failure propagates unchanged. -/
def Agent.create_task (st : AgentState) (task_request : TaskRequestBody) :
    Task × AgentState :=
  let p := st.db.create_task task_request.input task_request.additional_input
  (p.1, { st with db := p.2 })

/-- Structured list response for tasks (`TaskListResponse`). -/
structure TaskListResponse where
  tasks : List Task
  pagination : Pagination
deriving DecidableEq

/-- Structured list response for steps (`TaskStepsListResponse`). -/
structure TaskStepsListResponse where
  steps : List Step
  pagination : Pagination
deriving DecidableEq

/-- Structured list response for artifacts (`TaskArtifactsListResponse`);
the source additionally wraps this shape into a JSON transport response
(agent.py:177), which is outside the core. -/
structure TaskArtifactsListResponse where
  artifacts : List Artifact
  pagination : Pagination
deriving DecidableEq

/-- `Agent.list_tasks` (agent.py:71-80). -/
def Agent.list_tasks (st : AgentState) (page pageSize : Nat) : TaskListResponse :=
  let p := st.db.list_tasks page pageSize
  { tasks := p.1, pagination := p.2 }

/-- `Agent.get_task` (agent.py:82-90): the try/except re-raises any failure
unchanged. -/
def Agent.get_task (st : AgentState) (task_id : Nat) : Except Err Task :=
  st.db.get_task task_id

/-- `Agent.list_steps` (agent.py:92-103). -/
def Agent.list_steps (st : AgentState) (task_id : Nat) (page pageSize : Nat) :
    TaskStepsListResponse :=
  let p := st.db.list_steps task_id page pageSize
  { steps := p.1, pagination := p.2 }

/-- `Agent.get_step` (agent.py:154-162). -/
def Agent.get_step (st : AgentState) (task_id step_id : Nat) : Except Err Step :=
  st.db.get_step task_id step_id

/-- `Agent.list_artifacts` (agent.py:164-179). -/
def Agent.list_artifacts (st : AgentState) (task_id : Nat) (page pageSize : Nat) :
    TaskArtifactsListResponse :=
  let p := st.db.list_artifacts task_id page pageSize
  { artifacts := p.1, pagination := p.2 }

/-- `Agent.create_and_execute_step` (agent.py:105-152).  `runExec` is the
pluggable Work Executor (`utils.run`, modelled from the spec §6 contract as
an opaque callback producing artifact descriptors from the step input).

Normal path (agent.py:111-131): create a step — the source passes the whole
`step_request` object as the `input` argument — run the executor on the
step's input, register each returned descriptor as an agent-created Artifact
of this step, then set the in-memory status to the string `"completed"`.

Continuation path (agent.py:132-148): fetch page 1 of size 100 of the task's
steps, scan the page from its end for a step whose status is not
`"completed"`; if none, create a placeholder step with input `"y"` and empty
`additional_input`, mark it completed/last with the no-more-steps output, and
persist that mutation with `update_step`.

Both paths end with the unconditional post-processing `finishStep`
(agent.py:149-151). -/
def Agent.create_and_execute_step (runExec : InputVal → List ArtifactDescr)
    (st : AgentState) (task_id : Nat) (step_request : StepRequestBody) :
    Step × AgentState :=
  if step_request.input ≠ "y" then
    let p := st.db.create_step task_id (.req step_request) step_request.additional_input
    let artifacts := runExec p.1.input
    let q := registerArtifacts p.2 p.1 artifacts
    let step := { q.1 with status := .strRep "completed" }
    (finishStep step, { st with db := q.2 })
  else
    let steps := (st.db.list_steps task_id 1 100).1
    match steps.reverse.find? (fun s => s.status.neCompleted) with
    | some step => (finishStep step, st)
    | none =>
      let p := st.db.create_step task_id (.str "y") []
      let step :=
        { p.1 with
            status := .strRep "completed"
            is_last := true
            output := some "No more steps to run." }
      let q := p.2.update_step step
      (finishStep q.1, { st with db := q.2 })

/-- `Agent.create_artifact` (agent.py:181-209): read the upload's bytes,
resolve the file name (declared name or a fresh identifier `uuid`), resolve
the storage path (verbatim `relative_path` when it already ends with the file
name, else the join), write the bytes to the workspace under that path, then
register an Artifact record carrying the original `relative_path` with
`agent_created = False`. -/
def Agent.create_artifact (st : AgentState) (task_id : Nat)
    (file : UploadFileModel) (relative_path : String) (uuid : String) :
    Artifact × AgentState :=
  let file_name := file.filename.getD uuid
  let data := file.content
  let file_path :=
    if strEndsWith relative_path file_name then relative_path
    else osPathJoin relative_path file_name
  let ws := st.workspace.write task_id file_path data
  let p := st.db.create_artifact task_id file_name (some relative_path) none false none
  (p.1, { st with workspace := ws, db := p.2 })

/-- Transport-ready file response (`FileResponse(path=path, filename=...)`,
agent.py:228-232): streams the local file at `path`, tagged `filename`. -/
structure FileResponseModel where
  path : String
  filename : String
deriving DecidableEq

/-- `Agent.get_artifact` (agent.py:211-232): fetch the Artifact record by id,
derive the workspace path as the join of the stored `relative_path` and
`file_name`, read the blob, write it to a file named `file_name` in the
current working directory, and return a response streaming that local file.
All failures propagate unchanged. -/
def Agent.get_artifact (st : AgentState) (task_id artifact_id : Nat) :
    Except Err (FileResponseModel × AgentState) :=
  match st.db.get_artifact artifact_id with
  | .error e => .error e
  | .ok artifact =>
    match artifact.relative_path with
    | none => .error .TypeErr
    | some rp =>
      let file_path := osPathJoin rp artifact.file_name
      match st.workspace.read task_id file_path with
      | .error e => .error e
      | .ok data =>
        let path := artifact.file_name
        let st' := { st with localFS := st.localFS.writeFile path data }
        .ok ({ path := path, filename := artifact.file_name }, st')

/-! Concrete test fixtures used by counterexamples and witnesses. -/

/-- A stored step that is still running, with a business output. -/
def c1StepA : Step :=
  { task_id := 0, step_id := 0, input := .str "work", additional_input := [],
    status := .strRep "running", output := some "halfway", is_last := false,
    artifacts := [] }

/-- A state whose single task 0 has the single incomplete step `c1StepA`. -/
def c1StA : AgentState :=
  { db := { tasks := [], steps := [c1StepA], artifacts := [], nextId := 1 },
    workspace := ⟨[]⟩, localFS := ⟨[]⟩ }

/-- The i-th of a run of completed steps of task 0. -/
def c1CompStep (i : Nat) : Step :=
  { task_id := 0, step_id := i, input := .str "w", additional_input := [],
    status := .strRep "completed", output := none, is_last := false,
    artifacts := [] }

/-- A running step that is the 101st (most recent) step of task 0. -/
def c1RunStep : Step :=
  { task_id := 0, step_id := 100, input := .str "w", additional_input := [],
    status := .strRep "running", output := none, is_last := false,
    artifacts := [] }

/-- A state whose task 0 has 101 steps: the oldest 100 completed, the most
recent one still running. -/
def c1StB : AgentState :=
  { db := { tasks := [], steps := (List.range 100).map c1CompStep ++ [c1RunStep],
            artifacts := [], nextId := 101 },
    workspace := ⟨[]⟩, localFS := ⟨[]⟩ }

/-- First completed step of the spec's resumption example. -/
def c1WDone0 : Step :=
  { task_id := 0, step_id := 0, input := .str "a", additional_input := [],
    status := .strRep "completed", output := none, is_last := false,
    artifacts := [] }

/-- Second completed step of the spec's resumption example. -/
def c1WDone1 : Step :=
  { task_id := 0, step_id := 1, input := .str "b", additional_input := [],
    status := .strRep "completed", output := none, is_last := false,
    artifacts := [] }

/-- Running step of the spec's resumption example. -/
def c1WRun : Step :=
  { task_id := 0, step_id := 2, input := .str "c", additional_input := [],
    status := .strRep "running", output := none, is_last := false,
    artifacts := [] }

/-- The spec's resumption example state: steps `[completed, completed,
running]`. -/
def c1WSt : AgentState :=
  { db := { tasks := [], steps := [c1WDone0, c1WDone1, c1WRun], artifacts := [],
            nextId := 3 },
    workspace := ⟨[]⟩, localFS := ⟨[]⟩ }

/-- A fresh, empty state. -/
def c2St : AgentState :=
  { db := { tasks := [], steps := [], artifacts := [], nextId := 0 },
    workspace := ⟨[]⟩, localFS := ⟨[]⟩ }

/-- A non-sentinel step request. -/
def c3Req : StepRequestBody := { input := "write a file", additional_input := [] }

/-- A fresh, empty state. -/
def c3St : AgentState :=
  { db := { tasks := [], steps := [], artifacts := [], nextId := 0 },
    workspace := ⟨[]⟩, localFS := ⟨[]⟩ }

/-- An upload named `c.txt` with two bytes of content. -/
def c5File : UploadFileModel := { filename := some "c.txt", content := [104, 105] }

/-- A fresh, empty state. -/
def c5St : AgentState :=
  { db := { tasks := [], steps := [], artifacts := [], nextId := 0 },
    workspace := ⟨[]⟩, localFS := ⟨[]⟩ }

/-- An upload named `c.txt`. -/
def c6File : UploadFileModel := { filename := some "c.txt", content := [1, 2] }

/-- A fresh, empty state. -/
def c6St : AgentState :=
  { db := { tasks := [], steps := [], artifacts := [], nextId := 0 },
    workspace := ⟨[]⟩, localFS := ⟨[]⟩ }

/-- An artifact record whose blob is missing from the workspace. -/
def c7Art : Artifact :=
  { artifact_id := 3, task_id := 0, step_id := none, file_name := "f.txt",
    relative_path := some "/p", uri := none, agent_created := false }

/-- A state holding only the record `c7Art` and an empty workspace. -/
def c7St : AgentState :=
  { db := { tasks := [], steps := [], artifacts := [c7Art], nextId := 4 },
    workspace := ⟨[]⟩, localFS := ⟨[]⟩ }

/-- A fresh, empty state. -/
def c9St : AgentState :=
  { db := { tasks := [], steps := [], artifacts := [], nextId := 0 },
    workspace := ⟨[]⟩, localFS := ⟨[]⟩ }

/-- An uploaded artifact record for task 0 stored under `/d`. -/
def c10Art : Artifact :=
  { artifact_id := 1, task_id := 0, step_id := none, file_name := "out.txt",
    relative_path := some "/d", uri := none, agent_created := false }

/-- A state holding `c10Art`, its blob at `/d/out.txt`, and a pre-existing
local file `out.txt` in the current working directory. -/
def c10St : AgentState :=
  { db := { tasks := [], steps := [], artifacts := [c10Art], nextId := 2 },
    workspace := ⟨[(0, "/d/out.txt", [7, 8])]⟩,
    localFS := ⟨[("out.txt", [9])]⟩ }

/-- Shape of the placeholder step the continuation path creates and persists
when no incomplete step exists (agent.py:140-148): input `"y"`, empty
`additional_input`, status the primitive string `"completed"`, `is_last`
true, output the no-more-steps marker. -/
def mkPlaceholder (task_id next : Nat) : Step :=
  { task_id := task_id
    step_id := next
    input := .str "y"
    additional_input := []
    status := .strRep "completed"
    output := some "No more steps to run."
    is_last := true
    artifacts := [] }

theorem finishStep_output (s : Step) : (finishStep s).output = some "Done some work" := rfl

theorem finishStep_strRep (s : Step) : ∃ t, (finishStep s).status = .strRep t := by
  cases h : s.status with
  | enumRep v => exact ⟨v.value, by simp [finishStep, h]⟩
  | strRep t => exact ⟨t, by simp [finishStep, h]⟩

theorem finishStep_step_id (s : Step) : (finishStep s).step_id = s.step_id := by
  cases h : s.status <;> simp [finishStep, h]

theorem finishStep_is_last (s : Step) : (finishStep s).is_last = s.is_last := by
  cases h : s.status <;> simp [finishStep, h]

theorem registerArtifacts_steps (l : List ArtifactDescr) (db : DB) (s : Step) :
    (registerArtifacts db s l).2.steps = db.steps := by
  induction l generalizing db s with
  | nil => rfl
  | cons a rest ih => simp [registerArtifacts, DB.create_artifact, ih]

theorem registerArtifacts_tasks (l : List ArtifactDescr) (db : DB) (s : Step) :
    (registerArtifacts db s l).2.tasks = db.tasks := by
  induction l generalizing db s with
  | nil => rfl
  | cons a rest ih => simp [registerArtifacts, DB.create_artifact, ih]

theorem find?_reverse_of_split {α : Type} (p : α → Bool) (pre post : List α) (x : α)
    (hx : p x = true) (hpost : ∀ y ∈ post, p y = false) :
    ((pre ++ x :: post).reverse).find? p = some x := by
  rw [List.reverse_append, List.reverse_cons, List.find?_append, List.find?_append]
  have hnone : post.reverse.find? p = none := by
    rw [List.find?_eq_none]
    intro y hy
    rw [List.mem_reverse] at hy
    simp [hpost y hy]
  rw [hnone]
  simp [hx]

/-- The continuation path when the backward scan finds an incomplete step
(agent.py:137): the step is post-processed and returned, with no state
change. -/
theorem cont_resumes (runExec : InputVal → List ArtifactDescr) (st : AgentState)
    (task_id : Nat) (req : StepRequestBody) (s0 : Step)
    (hy : req.input = "y")
    (hsome : ((st.db.list_steps task_id 1 100).1.reverse).find?
        (fun s => s.status.neCompleted) = some s0) :
    Agent.create_and_execute_step runExec st task_id req = (finishStep s0, st) := by
  unfold Agent.create_and_execute_step
  rw [if_neg (not_not_intro hy)]
  simp only [hsome]

/-- The continuation path when the backward scan finds no incomplete step
(agent.py:138-148): a placeholder step is created, mutated, persisted with
`update_step`, post-processed and returned. -/
theorem cont_creates_placeholder (runExec : InputVal → List ArtifactDescr)
    (st : AgentState) (task_id : Nat) (req : StepRequestBody)
    (hy : req.input = "y")
    (hnone : ((st.db.list_steps task_id 1 100).1.reverse).find?
        (fun s => s.status.neCompleted) = none)
    (hfresh : ∀ s ∈ st.db.steps, s.step_id ≠ st.db.nextId) :
    Agent.create_and_execute_step runExec st task_id req =
      (finishStep (mkPlaceholder task_id st.db.nextId),
       { st with db :=
          { st.db with
              steps := st.db.steps ++ [mkPlaceholder task_id st.db.nextId]
              nextId := st.db.nextId + 1 } }) := by
  unfold Agent.create_and_execute_step
  rw [if_neg (not_not_intro hy)]
  simp only [hnone, DB.create_step, DB.update_step, List.map_append]
  simp [mkPlaceholder]
  have hmap : ∀ t ∈ st.db.steps,
      (if t.step_id = st.db.nextId then
        ({ task_id := task_id, step_id := st.db.nextId, input := InputVal.str "y",
           additional_input := [], status := StatusRep.strRep "completed",
           output := some "No more steps to run.", is_last := true,
           artifacts := [] } : Step)
       else t) = t := by
    intro t ht
    simp [hfresh t ht]
  exact (List.map_congr_left hmap).trans (List.map_id _)

/-- The continuation path on a task all of whose stored steps are completed
(any number of them): every element of whatever page the store returns is a
completed step of the task, so the backward scan finds nothing and a
placeholder step is created and persisted. -/
theorem cont_all_completed_appends (runExec : InputVal → List ArtifactDescr)
    (st : AgentState) (task_id : Nat) (req : StepRequestBody)
    (hy : req.input = "y")
    (hall : ∀ s ∈ st.db.steps, s.task_id = task_id → s.status.neCompleted = false)
    (hfresh : ∀ s ∈ st.db.steps, s.step_id ≠ st.db.nextId) :
    Agent.create_and_execute_step runExec st task_id req =
      (finishStep (mkPlaceholder task_id st.db.nextId),
       { st with db :=
          { st.db with
              steps := st.db.steps ++ [mkPlaceholder task_id st.db.nextId]
              nextId := st.db.nextId + 1 } }) := by
  have hpage : ∀ x ∈ (st.db.list_steps task_id 1 100).1,
      x.status.neCompleted = false := by
    intro x hx
    simp only [DB.list_steps, paginate] at hx
    have hx2 : x ∈ st.db.steps.filter (fun s => s.task_id == task_id) :=
      List.mem_of_mem_drop (List.mem_of_mem_take hx)
    have hx3 := List.mem_filter.mp hx2
    exact hall x hx3.1 (by simpa using hx3.2)
  have hnone : ((st.db.list_steps task_id 1 100).1.reverse).find?
      (fun s => s.status.neCompleted) = none := by
    rw [List.find?_eq_none]
    intro x hx
    rw [List.mem_reverse] at hx
    simp [hpage x hx]
  exact cont_creates_placeholder runExec st task_id req hy hnone hfresh

/-- C1 (counterexample): the claim as stated is false on two counts.  First,
for the state `c1StA` whose only step is running with output `"halfway"`, the
continuation call does return that step (same id, no new record) but not
unchanged: its output has been overwritten with the work-done marker.
Second, for the state `c1StB` with 101 steps whose only incomplete step is
the most recent one — so the claim's hypothesis "at least one incomplete step
among the most recent 100" holds — the code fetches the FIRST page of 100
steps (the oldest), finds no incomplete step there, and creates a new
placeholder record (step count grows from 101 to 102 and the returned step is
the fresh id 101, not the running step 100). -/
theorem c1_counterexample :
    ((Agent.create_and_execute_step (fun _ => []) c1StA 0 ⟨"y", []⟩).1.step_id = 0
      ∧ (Agent.create_and_execute_step (fun _ => []) c1StA 0 ⟨"y", []⟩).1.output
          = some "Done some work"
      ∧ c1StepA.output = some "halfway"
      ∧ (Agent.create_and_execute_step (fun _ => []) c1StA 0 ⟨"y", []⟩).1 ≠ c1StepA)
    ∧ (c1RunStep.status.neCompleted = true
      ∧ c1StB.db.steps.length = 101
      ∧ (Agent.create_and_execute_step (fun _ => []) c1StB 0 ⟨"y", []⟩).2.db.steps.length
          = 102
      ∧ (Agent.create_and_execute_step (fun _ => []) c1StB 0 ⟨"y", []⟩).1.step_id = 101) := by
  decide

/-- C1 (amended): for every continuation request (`input = "y"`), the code
fetches the first page of up to 100 task steps in creation order; if that
page, scanned from its most recently created element backward, contains a
step whose status is not `"completed"`, the first such step is returned with
no new step record created and no update persisted (the state is unchanged),
though the returned copy's output is overwritten with the fixed work-done
marker before returning. -/
theorem c1_continuation_resumes (runExec : InputVal → List ArtifactDescr)
    (st : AgentState) (task_id : Nat) (req : StepRequestBody) (s0 : Step)
    (pre post : List Step)
    (hy : req.input = "y")
    (hpage : (st.db.list_steps task_id 1 100).1 = pre ++ s0 :: post)
    (hs0 : s0.status.neCompleted = true)
    (hpost : ∀ s ∈ post, s.status.neCompleted = false) :
    Agent.create_and_execute_step runExec st task_id req = (finishStep s0, st)
    ∧ (Agent.create_and_execute_step runExec st task_id req).1.step_id = s0.step_id
    ∧ (Agent.create_and_execute_step runExec st task_id req).1.output
        = some "Done some work"
    ∧ (Agent.create_and_execute_step runExec st task_id req).2 = st := by
  have hsome : ((st.db.list_steps task_id 1 100).1.reverse).find?
      (fun s => s.status.neCompleted) = some s0 := by
    rw [hpage]
    exact find?_reverse_of_split _ pre post s0 hs0 hpost
  have hmain := cont_resumes runExec st task_id req s0 hy hsome
  refine ⟨hmain, ?_, ?_, ?_⟩
  · rw [hmain]
    exact finishStep_step_id s0
  · rw [hmain]
    exact finishStep_output s0
  · rw [hmain]

/-- C1 (witness): the spec's resumption example — a task with steps
`[completed, completed, running]` — resumes the running step with no state
change. -/
theorem c1_continuation_resumes_witness :
    Agent.create_and_execute_step (fun _ => []) c1WSt 0 ⟨"y", []⟩
      = (finishStep c1WRun, c1WSt)
    ∧ (Agent.create_and_execute_step (fun _ => []) c1WSt 0 ⟨"y", []⟩).1.step_id
        = c1WRun.step_id
    ∧ (Agent.create_and_execute_step (fun _ => []) c1WSt 0 ⟨"y", []⟩).1.output
        = some "Done some work"
    ∧ (Agent.create_and_execute_step (fun _ => []) c1WSt 0 ⟨"y", []⟩).2 = c1WSt :=
  c1_continuation_resumes (fun _ => []) c1WSt 0 ⟨"y", []⟩ c1WRun [c1WDone0, c1WDone1] []
    rfl (by decide) (by decide) (by decide)

/-- C2: on every task in which no stored step has a status different from
`"completed"` — any number of steps, including zero — a continuation call
creates a new placeholder step: input `"y"`, empty `additional_input`, status
`"completed"`, `is_last` true, output the no-more-steps marker; it persists
exactly that record via `update_step` and returns it (post-processed); and a
repeated continuation call creates a second such placeholder, again with
`is_last = true`.  The only side hypothesis is the store's id-allocation
invariant: step ids are allocated below the fresh-id counter. -/
theorem c2_placeholder_on_all_completed (runExec : InputVal → List ArtifactDescr)
    (st : AgentState) (task_id : Nat) (req : StepRequestBody)
    (hy : req.input = "y")
    (hall : ∀ s ∈ st.db.steps, s.task_id = task_id → s.status.neCompleted = false)
    (hid : ∀ s ∈ st.db.steps, s.step_id < st.db.nextId) :
    (Agent.create_and_execute_step runExec st task_id req).2.db.steps
      = st.db.steps ++ [mkPlaceholder task_id st.db.nextId]
    ∧ (Agent.create_and_execute_step runExec st task_id req).1
      = finishStep (mkPlaceholder task_id st.db.nextId)
    ∧ (Agent.create_and_execute_step runExec st task_id req).1.is_last = true
    ∧ (Agent.create_and_execute_step runExec st task_id req).1.step_id = st.db.nextId
    ∧ (Agent.create_and_execute_step runExec st task_id req).1.output
        = some "Done some work"
    ∧ (Agent.create_and_execute_step runExec
        (Agent.create_and_execute_step runExec st task_id req).2 task_id req).2.db.steps
      = st.db.steps ++ [mkPlaceholder task_id st.db.nextId,
                        mkPlaceholder task_id (st.db.nextId + 1)]
    ∧ (Agent.create_and_execute_step runExec
        (Agent.create_and_execute_step runExec st task_id req).2 task_id req).1.is_last
      = true := by
  have hfresh : ∀ s ∈ st.db.steps, s.step_id ≠ st.db.nextId :=
    fun s hs => Nat.ne_of_lt (hid s hs)
  have h1 := cont_all_completed_appends runExec st task_id req hy hall hfresh
  have hall2 : ∀ s ∈ (Agent.create_and_execute_step runExec st task_id req).2.db.steps,
      s.task_id = task_id → s.status.neCompleted = false := by
    rw [h1]
    intro s hs hts
    rcases List.mem_append.mp hs with hs1 | hs2
    · exact hall s hs1 hts
    · have : s = mkPlaceholder task_id st.db.nextId := List.mem_singleton.mp hs2
      subst this
      simp [mkPlaceholder, StatusRep.neCompleted]
  have hfresh2 : ∀ s ∈ (Agent.create_and_execute_step runExec st task_id req).2.db.steps,
      s.step_id ≠ (Agent.create_and_execute_step runExec st task_id req).2.db.nextId := by
    rw [h1]
    intro s hs
    rcases List.mem_append.mp hs with hs1 | hs2
    · have := hid s hs1
      simp only []
      omega
    · have : s = mkPlaceholder task_id st.db.nextId := List.mem_singleton.mp hs2
      subst this
      simp only [mkPlaceholder]
      omega
  have h2 := cont_all_completed_appends runExec
    (Agent.create_and_execute_step runExec st task_id req).2 task_id req hy hall2 hfresh2
  refine ⟨?_, ?_, ?_, ?_, ?_, ?_, ?_⟩
  · rw [h1]
  · rw [h1]
  · rw [h1]
    simp only []
    rw [finishStep_is_last]
    rfl
  · rw [h1]
    simp only []
    rw [finishStep_step_id]
    rfl
  · rw [h1]
    simp only []
    exact finishStep_output _
  · rw [h2, h1]
    simp [List.append_assoc]
  · rw [h2, finishStep_is_last]
    rfl

/-- C2 (witness): on an empty store (a task with zero steps), a continuation
call appends one placeholder step and a second call appends another, both
returned with `is_last = true`. -/
theorem c2_placeholder_witness :
    (Agent.create_and_execute_step (fun _ => []) c2St 0 ⟨"y", []⟩).2.db.steps
      = c2St.db.steps ++ [mkPlaceholder 0 0]
    ∧ (Agent.create_and_execute_step (fun _ => []) c2St 0 ⟨"y", []⟩).1
      = finishStep (mkPlaceholder 0 0)
    ∧ (Agent.create_and_execute_step (fun _ => []) c2St 0 ⟨"y", []⟩).1.is_last = true
    ∧ (Agent.create_and_execute_step (fun _ => []) c2St 0 ⟨"y", []⟩).1.step_id = 0
    ∧ (Agent.create_and_execute_step (fun _ => []) c2St 0 ⟨"y", []⟩).1.output
        = some "Done some work"
    ∧ (Agent.create_and_execute_step (fun _ => [])
        (Agent.create_and_execute_step (fun _ => []) c2St 0 ⟨"y", []⟩).2 0 ⟨"y", []⟩).2.db.steps
      = c2St.db.steps ++ [mkPlaceholder 0 0, mkPlaceholder 0 1]
    ∧ (Agent.create_and_execute_step (fun _ => [])
        (Agent.create_and_execute_step (fun _ => []) c2St 0 ⟨"y", []⟩).2 0 ⟨"y", []⟩).1.is_last
      = true :=
  c2_placeholder_on_all_completed (fun _ => []) c2St 0 ⟨"y", []⟩ rfl
    (by decide) (by decide)

/-- C3: at the failing input — a non-sentinel request with input
`"write a file"` — the step record the normal path creates carries the whole
`StepRequestBody` object as its `input` (the source passes
`input=step_request` to `db.create_step`, agent.py:114), which is not the
request's input string; this contradicts the claim (and the sibling branch at
agent.py:142, which passes a plain string). -/
theorem c3_step_input_is_whole_request :
    ((Agent.create_and_execute_step (fun _ => []) c3St 0 c3Req).2.db.steps.map Step.input
      = [InputVal.req c3Req])
    ∧ InputVal.req c3Req ≠ InputVal.str c3Req.input := by
  decide

/-- C4: every call to `create_and_execute_step`, on either path, returns a
step whose output is the fixed work-done marker, the overwrite happening
after the status has been normalized to its primitive string form (the
returned status is always in string form). -/
theorem c4_output_always_overwritten (runExec : InputVal → List ArtifactDescr)
    (st : AgentState) (task_id : Nat) (req : StepRequestBody) :
    (Agent.create_and_execute_step runExec st task_id req).1.output
      = some "Done some work"
    ∧ ∃ t, (Agent.create_and_execute_step runExec st task_id req).1.status
      = .strRep t := by
  unfold Agent.create_and_execute_step
  by_cases h : req.input = "y"
  · rw [if_neg (not_not_intro h)]
    cases hfind : ((st.db.list_steps task_id 1 100).1.reverse).find?
        (fun s => s.status.neCompleted) with
    | some s =>
      simp only [hfind]
      exact ⟨finishStep_output s, finishStep_strRep s⟩
    | none =>
      simp only [hfind]
      exact ⟨finishStep_output _, finishStep_strRep _⟩
  · rw [if_pos h]
    exact ⟨finishStep_output _, finishStep_strRep _⟩

/-- C5: at the failing input — an upload named `c.txt` with `relative_path`
`"/a/b/c.txt"`, which already ends with the file name — `create_artifact`
writes the bytes under the key `/a/b/c.txt`, but the Artifact record it
registers stores the unresolved `relative_path`, so `get_artifact` derives
the read key `join("/a/b/c.txt", "c.txt") = "/a/b/c.txt/c.txt"` and fails
with the missing-blob error instead of returning the written bytes: the
round-trip breaks. -/
theorem c5_roundtrip_breaks_on_suffix_path :
    ((Agent.create_artifact c5St 0 c5File "/a/b/c.txt" "u").2.workspace.read 0 "/a/b/c.txt"
      = .ok [104, 105])
    ∧ ((Agent.create_artifact c5St 0 c5File "/a/b/c.txt" "u").1.artifact_id = 0)
    ∧ osPathJoin "/a/b/c.txt" "c.txt" = "/a/b/c.txt/c.txt"
    ∧ (Agent.get_artifact (Agent.create_artifact c5St 0 c5File "/a/b/c.txt" "u").2 0 0
      = .error .FileNotFound) := by
  decide

/-- C6: `create_artifact` stores the uploaded bytes under `relative_path`
verbatim when it already ends with the resolved file name, and under the join
of `relative_path` and file name otherwise; in particular `"/a/b/"` with
`"c.txt"` stores at `"/a/b/c.txt"`, and `"/a/b/c.txt"` with `"c.txt"` stores
at `"/a/b/c.txt"` with no duplication. -/
theorem c6_storage_path_resolution (st : AgentState) (task_id : Nat)
    (file : UploadFileModel) (rp uuid : String) :
    ((Agent.create_artifact st task_id file rp uuid).2.workspace.blobs
      = (task_id,
         if strEndsWith rp (file.filename.getD uuid) then rp
         else osPathJoin rp (file.filename.getD uuid),
         file.content) :: st.workspace.blobs)
    ∧ (Agent.create_artifact c6St 0 c6File "/a/b/" "u").2.workspace.blobs.map
        (fun b => b.2.1) = ["/a/b/c.txt"]
    ∧ (Agent.create_artifact c6St 0 c6File "/a/b/c.txt" "u").2.workspace.blobs.map
        (fun b => b.2.1) = ["/a/b/c.txt"] :=
  ⟨rfl, by decide, by decide⟩

/-- C7: on an identifier matching no record, `get_task`, `get_step` and
`get_artifact` fail with the NotFound error propagated unchanged from the
record store, and `get_artifact` fails with the missing-blob error when the
record exists but the workspace holds no matching bytes; a failing call
returns no updated state, so no record is created as a side effect (the
accessors are pure reads of the store). -/
theorem c7_notfound_propagation (st : AgentState) (tid sid aid aid2 : Nat)
    (a : Artifact) (rp : String)
    (h1 : st.db.tasks.find? (fun t => t.task_id == tid) = none)
    (h2 : st.db.steps.find? (fun s => s.task_id == tid && s.step_id == sid) = none)
    (h3 : st.db.artifacts.find? (fun x => x.artifact_id == aid) = none)
    (h4 : st.db.artifacts.find? (fun x => x.artifact_id == aid2) = some a)
    (h5 : a.relative_path = some rp)
    (h6 : st.workspace.read tid (osPathJoin rp a.file_name) = .error .FileNotFound) :
    Agent.get_task st tid = .error .NotFound
    ∧ Agent.get_step st tid sid = .error .NotFound
    ∧ Agent.get_artifact st tid aid = .error .NotFound
    ∧ Agent.get_artifact st tid aid2 = .error .FileNotFound := by
  refine ⟨?_, ?_, ?_, ?_⟩
  · simp [Agent.get_task, DB.get_task, h1]
  · simp [Agent.get_step, DB.get_step, h2]
  · simp [Agent.get_artifact, DB.get_artifact, h3]
  · simp [Agent.get_artifact, DB.get_artifact, h4, h5, h6]

/-- C7 (witness): on a state holding only an artifact record whose blob is
missing, the three accessors fail NotFound on unknown ids and `get_artifact`
fails with the missing-blob error on the divergent record. -/
theorem c7_notfound_witness :
    Agent.get_task c7St 9 = .error .NotFound
    ∧ Agent.get_step c7St 9 9 = .error .NotFound
    ∧ Agent.get_artifact c7St 9 8 = .error .NotFound
    ∧ Agent.get_artifact c7St 9 3 = .error .FileNotFound :=
  c7_notfound_propagation c7St 9 9 8 3 c7Art "/p" (by decide) (by decide) (by decide)
    (by decide) rfl (by decide)

/-- C8: each list accessor passes `page` and `pageSize` through to the record
store unvalidated (the identity below holds for every value, including 0) and
returns the store's ordered page together with its pagination metadata
(current page, page size, total count, total pages) in the structured
list-response shape. -/
theorem c8_pagination_passthrough (st : AgentState) (tid page pageSize : Nat) :
    Agent.list_tasks st page pageSize
      = { tasks := (st.db.tasks.drop ((page - 1) * pageSize)).take pageSize,
          pagination :=
            { current_page := page, page_size := pageSize,
              total_items := st.db.tasks.length,
              total_pages := (st.db.tasks.length + pageSize - 1) / pageSize } }
    ∧ Agent.list_steps st tid page pageSize
      = { steps := (((st.db.steps.filter (fun s => s.task_id == tid)).drop
            ((page - 1) * pageSize)).take pageSize),
          pagination :=
            { current_page := page, page_size := pageSize,
              total_items := (st.db.steps.filter (fun s => s.task_id == tid)).length,
              total_pages := ((st.db.steps.filter (fun s => s.task_id == tid)).length
                + pageSize - 1) / pageSize } }
    ∧ Agent.list_artifacts st tid page pageSize
      = { artifacts := (((st.db.artifacts.filter (fun a => a.task_id == tid)).drop
            ((page - 1) * pageSize)).take pageSize),
          pagination :=
            { current_page := page, page_size := pageSize,
              total_items := (st.db.artifacts.filter (fun a => a.task_id == tid)).length,
              total_pages := ((st.db.artifacts.filter (fun a => a.task_id == tid)).length
                + pageSize - 1) / pageSize } } :=
  ⟨rfl, rfl, rfl⟩

/-- C9: on the normal (non-sentinel) path the record store gains exactly the
created step record — which keeps its creation-time status (`created`) and
output (none) because the later `status = "completed"` and output assignments
touch only the in-memory copy and are never written back with `update_step` —
while the returned in-memory step does carry status `"completed"` and the
work-done output. -/
theorem c9_normal_path_not_persisted (runExec : InputVal → List ArtifactDescr)
    (st : AgentState) (task_id : Nat) (req : StepRequestBody)
    (h : req.input ≠ "y") :
    (Agent.create_and_execute_step runExec st task_id req).2.db.steps
      = st.db.steps ++
        [{ task_id := task_id, step_id := st.db.nextId, input := .req req,
           additional_input := req.additional_input, status := .enumRep .created,
           output := none, is_last := false, artifacts := [] }]
    ∧ (Agent.create_and_execute_step runExec st task_id req).2.db.tasks = st.db.tasks
    ∧ (Agent.create_and_execute_step runExec st task_id req).1.status
        = .strRep "completed"
    ∧ (Agent.create_and_execute_step runExec st task_id req).1.output
        = some "Done some work" := by
  unfold Agent.create_and_execute_step
  rw [if_pos h]
  refine ⟨?_, ?_, ?_, ?_⟩
  · simp only []
    rw [registerArtifacts_steps]
    simp [DB.create_step]
  · simp only []
    rw [registerArtifacts_tasks]
    simp [DB.create_step]
  · rfl
  · rfl

/-- C9 (witness): a concrete normal-path call on an empty store appends one
step record still in status `created` with no output, while the returned step
reads completed with the work-done output. -/
theorem c9_normal_path_witness :
    (Agent.create_and_execute_step (fun _ => []) c9St 0 ⟨"do work", []⟩).2.db.steps
      = c9St.db.steps ++
        [{ task_id := 0, step_id := 0, input := .req ⟨"do work", []⟩,
           additional_input := [], status := .enumRep .created,
           output := none, is_last := false, artifacts := [] }]
    ∧ (Agent.create_and_execute_step (fun _ => []) c9St 0 ⟨"do work", []⟩).2.db.tasks
        = c9St.db.tasks
    ∧ (Agent.create_and_execute_step (fun _ => []) c9St 0 ⟨"do work", []⟩).1.status
        = .strRep "completed"
    ∧ (Agent.create_and_execute_step (fun _ => []) c9St 0 ⟨"do work", []⟩).1.output
        = some "Done some work" :=
  c9_normal_path_not_persisted (fun _ => []) c9St 0 ⟨"do work", []⟩ (by decide)

/-- C10: a successful `get_artifact` writes the retrieved blob bytes to a
file in the server's current working directory named exactly the artifact's
`file_name` — not a workspace path — shadowing any existing file of that
name, and the returned response streams that local file (its path is the bare
file name). -/
theorem c10_get_artifact_writes_local_cwd_file (st : AgentState) (tid aid : Nat)
    (a : Artifact) (rp : String) (data : List Nat)
    (h1 : st.db.artifacts.find? (fun x => x.artifact_id == aid) = some a)
    (h2 : a.relative_path = some rp)
    (h3 : st.workspace.read tid (osPathJoin rp a.file_name) = .ok data) :
    Agent.get_artifact st tid aid
      = .ok ({ path := a.file_name, filename := a.file_name },
             { st with localFS := st.localFS.writeFile a.file_name data })
    ∧ (st.localFS.writeFile a.file_name data).readFile a.file_name = some data := by
  constructor
  · simp [Agent.get_artifact, DB.get_artifact, h1, h2, h3]
  · simp [LocalFS.writeFile, LocalFS.readFile]

/-- C10 (witness): retrieving the stored artifact writes its two blob bytes
over the pre-existing local file `out.txt` and returns a response whose path
is that bare file name. -/
theorem c10_get_artifact_witness :
    Agent.get_artifact c10St 0 1
      = .ok ({ path := "out.txt", filename := "out.txt" },
             { c10St with localFS := c10St.localFS.writeFile "out.txt" [7, 8] })
    ∧ (c10St.localFS.writeFile "out.txt" [7, 8]).readFile "out.txt" = some [7, 8] :=
  c10_get_artifact_writes_local_cwd_file c10St 0 1 c10Art "/d" [7, 8] (by decide) rfl
    (by decide)

end AutoGPT
